import Mathlib

/-!
Shallow embedding of the clarity evaluation harness:
  - `src/scripts/evaluation/generate-dataset.py` (dataset builder),
  - `src/_cleanup/scripts/evaluation/compare-strategies.py` (strategy comparison runner),
  - `src/_cleanup/scripts/evaluation/run-ragas.py` (RAGAS runner).

HTTP is modelled by an oracle mapping each request to an `Outcome`: either an
HTTP response (status code and body text) or a transport-level failure
(connection refused, timeout, DNS failure), which in the Python scripts is an
exception raised by `session.post`.  Each script's `main` is embedded as a
pure function from its inputs (dataset-file existence, parsed dataset, CLI
flags, oracle) to the list of records written to the output file paired with
an `Except` describing whether the run completed or aborted with an
uncaught exception.
-/

/-- One QA item of the golden dataset, as built by `build_entry` in
`generate-dataset.py` (dict key order: id, question, ground_truth,
expected_tool, category, ticker, difficulty). -/
structure QAItem where
  id : String
  question : String
  ground_truth : String
  expected_tool : List String
  category : String
  ticker : Option String
  difficulty : String
  deriving Repr, DecidableEq

/-- `build_entry(id_, question, category, ticker=None, expected_tool=None,
difficulty="medium", ground_truth="")`; `expected_tool or []` maps a missing
(or empty) tool list to `[]`. -/
def build_entry (id_ question category : String) (ticker : Option String)
    (expected_tool : Option (List String)) (difficulty ground_truth : String) : QAItem :=
  ⟨id_, question, ground_truth, expected_tool.getD [], category, ticker, difficulty⟩

/-- The closed category enumeration from the module docstring of
`generate-dataset.py`. -/
def categoryEnum : List String :=
  ["single_metric", "growth_rate", "trend", "comparison", "qualitative", "hybrid", "edge_cases"]

namespace GenerateDataset

/-- `main` of `generate-dataset.py`: assembles the `data` list in source
order (the file write is I/O and out of the embedding).  The argument makes
the contract `build() -> ordered sequence` explicit: the builder reads no
input at all. -/
def main (_u : Unit) : List QAItem :=
  [ build_entry "single_metric_1" "What was NVDA's revenue in Q3 FY2024?" "single_metric" (some "NVDA") (some ["get_financial_metrics"]) "medium" "",
    build_entry "single_metric_2" "What was Apple's EPS in Q1 FY2024?" "single_metric" (some "AAPL") (some ["get_financial_metrics"]) "medium" "",
    build_entry "growth_1" "What was AMD's YoY revenue growth in Q2 FY2024?" "growth_rate" (some "AMD") (some ["compute_growth_rate"]) "medium" "",
    build_entry "growth_2" "What was Microsoft’s QoQ net income change from Q3 to Q4 FY2024?" "growth_rate" (some "MSFT") (some ["compute_growth_rate"]) "medium" "",
    build_entry "trend_1" "Show Apple’s operating margin trend over the last 4 quarters." "trend" (some "AAPL") (some ["get_multi_quarter_metrics"]) "medium" "",
    build_entry "trend_2" "Plot Meta's free cash flow over the last 3 quarters." "trend" (some "META") (some ["get_multi_quarter_metrics"]) "medium" "",
    build_entry "comparison_1" "Compare AWS and Azure revenue growth over the last two quarters." "comparison" none (some ["get_multi_quarter_metrics", "compute_growth_rate"]) "hard" "",
    build_entry "qual_1" "What did Jensen Huang say about AI demand?" "qualitative" (some "NVDA") (some ["search_earnings_transcript"]) "medium" "",
    build_entry "qual_2" "What did Tim Cook say about services growth?" "qualitative" (some "AAPL") (some ["search_earnings_transcript"]) "medium" "",
    build_entry "hybrid_1" "What was NVDA's data center revenue and what drove the growth?" "hybrid" (some "NVDA") (some ["get_financial_metrics", "search_earnings_transcript"]) "hard" "",
    build_entry "edge_1" "What was Tesla's revenue in Q1 2024?" "edge_cases" (some "TSLA") (some ["list_available_data"]) "medium" "" ]

end GenerateDataset

/-- The outcome the HTTP oracle assigns to one request: a response with a
status code and a body, or a transport-level failure (the exception
`aiohttp` raises from `session.post`). -/
inductive Outcome where
  | response (status : Nat) (body : String)
  | transportError (msg : String)
  deriving Repr, DecidableEq

/-- Whether the outcome is an HTTP response (of any status) rather than a
raised transport exception. -/
def Outcome.isResponse : Outcome → Bool
  | .response _ _ => true
  | .transportError _ => false

/-- The status code of a response outcome (junk 0 on a transport error). -/
def Outcome.statusOf : Outcome → Nat
  | .response st _ => st
  | .transportError _ => 0

/-- The body text of a response outcome (junk on a transport error). -/
def Outcome.bodyOf : Outcome → String
  | .response _ b => b
  | .transportError m => m

/-- Python truthiness of `args.limit` (an `int` or `None`): `None` and `0`
are falsy. -/
def pyTruthyInt : Option Int → Bool
  | none => false
  | some n => n != 0

/-- Python's `lst[: n]` for an `int` `n`: for `n ≥ 0` the first `n`
elements, for `n < 0` the stop index is `len(lst) + n` clamped at `0`. -/
def pySliceTo {α : Type} (l : List α) (n : Int) : List α :=
  if 0 ≤ n then l.take n.toNat else l.take (l.length - (-n).toNat)

namespace CompareStrategies

/-- The dataset artifact path `DATASET_PATH` of `compare-strategies.py`
(resolved relative to the script's top-level directory). -/
def DATASET_PATH : String := "data/evaluation/golden-qa.json"

/-- One line of `strategy-compare.jsonl`: the dict literal returned by
`run_case` (keys id, question, strategy, status, raw_response; there is no
error key). -/
structure Record where
  id : String
  question : String
  strategy : String
  status : Nat
  raw_response : String
  deriving Repr, DecidableEq

/-- `run_case(session, item, strategy)`: posts the question and builds the
result dict from `resp.status` and `resp.text()`.  There is no try/except,
so a transport-level failure propagates as an exception (`Except.error`);
a non-2xx response is still a normal response and is returned as a record. -/
def run_case (item : QAItem) (strategy : String) : Outcome → Except String Record
  | .response st body => .ok ⟨item.id, item.question, strategy, st, body⟩
  | .transportError msg => .error msg

/-- The record `run_case` returns for a response outcome. -/
def recordOf (item : QAItem) (strategy : String) (o : Outcome) : Record :=
  ⟨item.id, item.question, strategy, o.statusOf, o.bodyOf⟩

/-- The inner `for strat in strategies` loop for one item: each successful
`run_case` is written to the output file; an exception stops the whole run,
keeping the records already written. -/
def runStrats (fetch : QAItem → String → Outcome) (item : QAItem) :
    List String → List Record × Except String Unit
  | [] => ([], .ok ())
  | s :: rest =>
    match run_case item s (fetch item s) with
    | .error msg => ([], .error msg)
    | .ok r =>
      let p := runStrats fetch item rest
      (r :: p.1, p.2)

/-- The outer `for item in dataset` loop of `main`. -/
def runLoop (fetch : QAItem → String → Outcome) :
    List QAItem → List String → List Record × Except String Unit
  | [], _ => ([], .ok ())
  | it :: rest, strats =>
    match runStrats fetch it strats with
    | (rs, .error msg) => (rs, .error msg)
    | (rs, .ok _) =>
      let p := runLoop fetch rest strats
      (rs ++ p.1, p.2)

/-- The dataset slicing of `main`: `if args.smoke: dataset = dataset[:5]
elif args.limit: dataset = dataset[: args.limit]`. -/
def selectItems (dataset : List QAItem) (smoke : Bool) (limit : Option Int) : List QAItem :=
  if smoke then dataset.take 5
  else if pyTruthyInt limit then pySliceTo dataset (limit.getD 0)
  else dataset

/-- `args.strategies or ["baseline", "dense-only", "hybrid-0.6"]`. -/
def resolveStrategies : Option (List String) → List String
  | none => ["baseline", "dense-only", "hybrid-0.6"]
  | some l => if l.isEmpty then ["baseline", "dense-only", "hybrid-0.6"] else l

/-- `main(args)` of `compare-strategies.py`: raises `FileNotFoundError`
when the dataset artifact is missing (before any request), else slices the
dataset, resolves the strategies and runs the nested loop. -/
def main (datasetExists : Bool) (dataset : List QAItem) (smoke : Bool) (limit : Option Int)
    (strategies : Option (List String)) (fetch : QAItem → String → Outcome) :
    List Record × Except String Unit :=
  if datasetExists then
    runLoop fetch (selectItems dataset smoke limit) (resolveStrategies strategies)
  else ([], .error ("Dataset not found: " ++ DATASET_PATH))

end CompareStrategies

namespace RunRagas

/-- The dataset artifact path `DATASET_PATH` of `run-ragas.py` (resolved
relative to the script's top-level directory). -/
def DATASET_PATH : String := "data/evaluation/golden-qa.json"

/-- One line of `ragas-run.jsonl`: the `record` dict of `main` (keys id,
question, category, expected_tool, raw_response, error; the latter four all
come from `.get` and may be null). -/
structure Record where
  id : String
  question : String
  category : Option String
  expected_tool : Option (List String)
  raw_response : Option String
  error : Option String
  deriving Repr, DecidableEq

/-- The dict `fetch_answer` returns: `{"raw": content}` on a 200 response,
`{"error": "HTTP {status}: {text}"}` on any other status. -/
inductive FetchResult where
  | raw (content : String)
  | err (msg : String)
  deriving Repr, DecidableEq

/-- `fetch_answer(session, question)`: `session.post` may raise a transport
exception (no try/except, it propagates); otherwise a non-200 status yields
the error dict and a 200 status yields the raw body. -/
def fetch_answer : Outcome → Except String FetchResult
  | .transportError msg => .error msg
  | .response status text =>
    if status ≠ 200 then .ok (.err ("HTTP " ++ toString status ++ ": " ++ text))
    else .ok (.raw text)

/-- The `FetchResult` `fetch_answer` yields for a response outcome (junk on
a transport error, where `fetch_answer` raises instead). -/
def resultOf : Outcome → FetchResult
  | .response status text =>
    if status ≠ 200 then .err ("HTTP " ++ toString status ++ ": " ++ text)
    else .raw text
  | .transportError msg => .err msg

/-- The `record` dict built in `main`'s loop from the item and the
`fetch_answer` result: `raw_response = result.get("raw")` and
`error = result.get("error")`, so exactly one of the two is null. -/
def mkRecord (item : QAItem) : FetchResult → Record
  | .raw c => ⟨item.id, item.question, some item.category, some item.expected_tool, some c, none⟩
  | .err m => ⟨item.id, item.question, some item.category, some item.expected_tool, none, some m⟩

/-- The record `main`'s loop writes for an item whose request got an HTTP
response. -/
def recordOf (item : QAItem) (o : Outcome) : Record :=
  mkRecord item (resultOf o)

/-- The `for item in dataset` loop of `main`: one request per item, one
record per completed request; a raised transport exception stops the run. -/
def runLoop (fetch : String → Outcome) : List QAItem → List Record × Except String Unit
  | [] => ([], .ok ())
  | it :: rest =>
    match fetch_answer (fetch it.question) with
    | .error msg => ([], .error msg)
    | .ok fr =>
      let p := runLoop fetch rest
      (mkRecord it fr :: p.1, p.2)

/-- The dataset selection of `main`: `if args.categories:` filters by
category membership first, then `if args.smoke: ... elif args.limit: ...`
slices the filtered list. -/
def selectItems (dataset : List QAItem) (categories : Option (List String)) (smoke : Bool)
    (limit : Option Int) : List QAItem :=
  let ds := match categories with
    | none => dataset
    | some cats => if cats.isEmpty then dataset else dataset.filter (fun d => cats.contains d.category)
  if smoke then ds.take 5
  else if pyTruthyInt limit then pySliceTo ds (limit.getD 0)
  else ds

/-- `main(args)` of `run-ragas.py`: raises `FileNotFoundError` when the
dataset artifact is missing (before any request), else filters, slices and
runs the loop. -/
def main (datasetExists : Bool) (dataset : List QAItem) (categories : Option (List String))
    (smoke : Bool) (limit : Option Int) (fetch : String → Outcome) :
    List Record × Except String Unit :=
  if datasetExists then
    runLoop fetch (selectItems dataset categories smoke limit)
  else ([], .error ("Dataset not found: " ++ DATASET_PATH))

end RunRagas

/-- An oracle where every request fails at the transport level (the service
is not running: connection refused). -/
def refusedFetch : QAItem → String → Outcome :=
  fun _ _ => Outcome.transportError "Cannot connect to host localhost:3000"

/-- An oracle where every request gets an HTTP 500 response with an error
body. -/
def errorBodyFetch : QAItem → String → Outcome :=
  fun _ _ => Outcome.response 500 "Internal Server Error"

/-- `run_case` on a response outcome returns the record with the observed
status and the body text. -/
theorem CompareStrategies.run_case_response (item : QAItem) (s : String) (o : Outcome)
    (h : o.isResponse = true) :
    CompareStrategies.run_case item s o = .ok (CompareStrategies.recordOf item s o) := by
  cases o with
  | response st b => rfl
  | transportError m => simp [Outcome.isResponse] at h

/-- When every strategy's request for one item gets an HTTP response, the
inner loop records each strategy in list order and finishes normally. -/
theorem CompareStrategies.runStrats_ok (fetch : QAItem → String → Outcome) (item : QAItem)
    (strats : List String) (h : ∀ s ∈ strats, (fetch item s).isResponse = true) :
    CompareStrategies.runStrats fetch item strats
      = (strats.map (fun s => CompareStrategies.recordOf item s (fetch item s)), .ok ()) := by
  induction strats with
  | nil => rfl
  | cons s rest ih =>
    have hs : (fetch item s).isResponse = true := h s (List.mem_cons_self s rest)
    have hrest : ∀ x ∈ rest, (fetch item x).isResponse = true :=
      fun x hx => h x (List.mem_cons_of_mem s hx)
    simp [CompareStrategies.runStrats, CompareStrategies.run_case_response item s _ hs, ih hrest]

/-- When every request of the run gets an HTTP response, the nested loop of
`compare-strategies.py` records the full Cartesian product, items outer and
strategies inner, and finishes normally. -/
theorem CompareStrategies.runLoop_all_responses (fetch : QAItem → String → Outcome) (ds : List QAItem)
    (strats : List String) (h : ∀ it ∈ ds, ∀ s ∈ strats, (fetch it s).isResponse = true) :
    CompareStrategies.runLoop fetch ds strats
      = (ds.flatMap (fun it => strats.map (fun s => CompareStrategies.recordOf it s (fetch it s))),
          .ok ()) := by
  induction ds with
  | nil => rfl
  | cons it rest ih =>
    have hit : ∀ s ∈ strats, (fetch it s).isResponse = true := h it (List.mem_cons_self it rest)
    have hrest : ∀ x ∈ rest, ∀ s ∈ strats, (fetch x s).isResponse = true :=
      fun x hx => h x (List.mem_cons_of_mem it hx)
    simp [CompareStrategies.runLoop, CompareStrategies.runStrats_ok fetch it strats hit, ih hrest]

/-- Counting the Cartesian product: binding a map over an inner list yields
`outer × inner` elements. -/
theorem length_bind_map {α β γ : Type} (ds : List α) (strats : List β) (f : α → β → γ) :
    (ds.flatMap (fun it => strats.map (f it))).length = ds.length * strats.length := by
  induction ds with
  | nil => simp
  | cons it rest ih =>
    simp [List.flatMap_cons, List.length_append, ih, Nat.succ_mul, Nat.add_comm]

/-- `fetch_answer` on a response outcome returns normally, with the raw
body on a 200 and the error dict otherwise. -/
theorem RunRagas.fetch_answer_ok (o : Outcome) (h : o.isResponse = true) :
    RunRagas.fetch_answer o = .ok (RunRagas.resultOf o) := by
  cases o with
  | response st text => simp [RunRagas.fetch_answer, RunRagas.resultOf, apply_ite]
  | transportError m => simp [Outcome.isResponse] at h

/-- When every request gets an HTTP response, the loop of `run-ragas.py`
records each selected item in order and finishes normally. -/
theorem RunRagas.ragas_loop_all_responses (fetch : String → Outcome) (ds : List QAItem)
    (h : ∀ it ∈ ds, (fetch it.question).isResponse = true) :
    RunRagas.runLoop fetch ds
      = (ds.map (fun it => RunRagas.recordOf it (fetch it.question)), .ok ()) := by
  induction ds with
  | nil => rfl
  | cons it rest ih =>
    have hit : (fetch it.question).isResponse = true := h it (List.mem_cons_self it rest)
    have hrest : ∀ x ∈ rest, (fetch x.question).isResponse = true :=
      fun x hx => h x (List.mem_cons_of_mem it hx)
    simp [RunRagas.runLoop, RunRagas.fetch_answer_ok _ hit, ih hrest, RunRagas.recordOf]

/-- A RAGAS record copies the item's category regardless of the outcome. -/
theorem RunRagas.recordOf_category (it : QAItem) (o : Outcome) :
    (RunRagas.recordOf it o).category = some it.category := by
  cases o with
  | response st text =>
    by_cases hc : st ≠ 200 <;>
      simp [RunRagas.recordOf, RunRagas.resultOf, RunRagas.mkRecord, hc]
  | transportError m => rfl

/-- A RAGAS record from a response either holds a body with a null error,
or a null body with a populated error. -/
theorem RunRagas.recordOf_shape (it : QAItem) (o : Outcome) :
    (∃ body, (RunRagas.recordOf it o).raw_response = some body ∧
        (RunRagas.recordOf it o).error = none) ∨
      ((RunRagas.recordOf it o).raw_response = none ∧
        ∃ msg, (RunRagas.recordOf it o).error = some msg) := by
  cases o with
  | response st text =>
    by_cases hc : st ≠ 200
    · exact Or.inr (by simp [RunRagas.recordOf, RunRagas.resultOf, RunRagas.mkRecord, hc])
    · exact Or.inl ⟨text, by simp [RunRagas.recordOf, RunRagas.resultOf, RunRagas.mkRecord, hc]⟩
  | transportError m =>
    exact Or.inr (by simp [RunRagas.recordOf, RunRagas.resultOf, RunRagas.mkRecord])

/-- A Python slice `lst[: n]` keeps only elements of `lst`. -/
theorem pySliceTo_subset {α : Type} (l : List α) (n : Int) : pySliceTo l n ⊆ l := by
  unfold pySliceTo
  split <;> exact List.take_subset _ _

/-- Every item selected under a non-empty category filter passes the
filter. -/
theorem RunRagas.mem_selectItems_cats (ds : List QAItem) (cats : List String)
    (hcats : cats.isEmpty = false) (smoke : Bool) (limit : Option Int) (it : QAItem)
    (hit : it ∈ RunRagas.selectItems ds (some cats) smoke limit) :
    cats.contains it.category = true := by
  have hsub : RunRagas.selectItems ds (some cats) smoke limit
      ⊆ ds.filter (fun d => cats.contains d.category) := by
    simp only [RunRagas.selectItems, hcats, Bool.false_eq_true, if_false]
    split
    · exact List.take_subset _ _
    · split
      · exact pySliceTo_subset _ _
      · exact fun x hx => hx
  simpa using (List.mem_filter.mp (hsub hit)).2

/-- Claim C5: in the dataset built by `generate-dataset.py`, every item id
is unique and every category is a member of the closed enumeration
single_metric, growth_rate, trend, comparison, qualitative, hybrid,
edge_cases. -/
theorem C5_ids_unique_categories_closed :
    ((GenerateDataset.main ()).map QAItem.id).Nodup ∧
      (GenerateDataset.main ()).all (fun it => categoryEnum.contains it.category) = true := by
  decide

/-- Claim C9: the dataset builder is deterministic: it reads no input, so
any two invocations yield the same ordered item sequence, and that sequence
has the fixed id sequence of the source. -/
theorem C9_builder_deterministic : ∀ u v : Unit,
    GenerateDataset.main u = GenerateDataset.main v ∧
      (GenerateDataset.main u).map QAItem.id =
        ["single_metric_1", "single_metric_2", "growth_1", "growth_2", "trend_1", "trend_2",
         "comparison_1", "qual_1", "qual_2", "hybrid_1", "edge_1"] :=
  fun u v => match u, v with
  | (), () => ⟨rfl, by decide⟩

/-- Claim C1 counterexample: with the service down (connection refused on
every request), the very first (item, strategy) pair aborts the whole run
with an uncaught exception; no Run Record is captured for it and the loop
does not proceed to the next pair. -/
theorem C1_counterexample :
    CompareStrategies.main true (GenerateDataset.main ()) false none none refusedFetch
        = ([], Except.error "Cannot connect to host localhost:3000") ∧
      (CompareStrategies.main true (GenerateDataset.main ()) false none none refusedFetch).1.length
        = 0 :=
  ⟨rfl, rfl⟩

/-- Claim C1 (amended): a non-2xx HTTP response does not abort the run: the
outcome is captured as a Run Record whose status is the observed code,
nothing is retried, and the loop proceeds to the next pair, so every
attempted pair is recorded and the run completes; a transport-level failure
(connection refused, timeout, DNS failure) instead propagates as an
uncaught exception and aborts the run. -/
theorem C1_non2xx_captured_loop_continues (ds : List QAItem) (strats : List String)
    (fetch : QAItem → String → Outcome)
    (h : ∀ it ∈ ds, ∀ s ∈ strats, (fetch it s).isResponse = true) :
    (CompareStrategies.runLoop fetch ds strats).2 = Except.ok () ∧
      ∀ it ∈ ds, ∀ s ∈ strats,
        CompareStrategies.recordOf it s (fetch it s)
          ∈ (CompareStrategies.runLoop fetch ds strats).1 := by
  have hok := CompareStrategies.runLoop_all_responses fetch ds strats h
  constructor
  · rw [hok]
  · intro it hit s hs
    have hmem : CompareStrategies.recordOf it s (fetch it s)
        ∈ ds.flatMap (fun i => strats.map (fun s2 => CompareStrategies.recordOf i s2 (fetch i s2))) :=
      List.mem_flatMap.mpr ⟨it, hit, List.mem_map_of_mem _ hs⟩
    rw [hok]
    exact hmem

/-- Claim C1 witness: a run of two items and two strategies where every
request is answered 404 completes normally with each pair's record
present. -/
theorem C1_witness :
    (CompareStrategies.runLoop (fun _ s => Outcome.response 404 ("not found: " ++ s))
        ((GenerateDataset.main ()).take 2) ["baseline", "hybrid-0.6"]).2 = Except.ok () ∧
      ∀ it ∈ (GenerateDataset.main ()).take 2, ∀ s ∈ (["baseline", "hybrid-0.6"] : List String),
        CompareStrategies.recordOf it s (Outcome.response 404 ("not found: " ++ s))
          ∈ (CompareStrategies.runLoop (fun _ s => Outcome.response 404 ("not found: " ++ s))
              ((GenerateDataset.main ()).take 2) ["baseline", "hybrid-0.6"]).1 :=
  C1_non2xx_captured_loop_continues _ _ _ (by decide)

/-- Claim C2 counterexample: a run over the full 11-item dataset with the
default 3 strategies where every request fails at the transport level
writes 0 records, not |selected items| × |strategies| = 33. -/
theorem C2_counterexample :
    (CompareStrategies.main true (GenerateDataset.main ()) false none none refusedFetch).1.length
        = 0 ∧
      (CompareStrategies.selectItems (GenerateDataset.main ()) false none).length *
          (CompareStrategies.resolveStrategies none).length = 33 :=
  ⟨rfl, rfl⟩

/-- Claim C2 (amended): provided every attempted request receives an HTTP
response (of any status, all may be non-2xx failures), the number of Run
Records written equals |selected items| × |strategies| exactly; a
transport-level failure instead aborts the run and truncates the output. -/
theorem C2_record_count (ds : List QAItem) (strats : List String)
    (fetch : QAItem → String → Outcome)
    (h : ∀ it ∈ ds, ∀ s ∈ strats, (fetch it s).isResponse = true) :
    (CompareStrategies.runLoop fetch ds strats).1.length = ds.length * strats.length := by
  rw [CompareStrategies.runLoop_all_responses fetch ds strats h]
  exact length_bind_map ds strats _

/-- Claim C2 witness: with every request answered 500, the full dataset and
the default strategies yield exactly 11 × 3 records. -/
theorem C2_witness :
    (CompareStrategies.runLoop errorBodyFetch (GenerateDataset.main ())
        ["baseline", "dense-only", "hybrid-0.6"]).1.length
      = (GenerateDataset.main ()).length *
          (["baseline", "dense-only", "hybrid-0.6"] : List String).length :=
  C2_record_count _ _ _ (by decide)

/-- Claim C3 counterexample: with both the smoke flag and an explicit limit
of 7 over the 11-item dataset, 5 items are selected, not
min(limit, |dataset|) = 7: smoke mode wins, not the explicit limit. -/
theorem C3_counterexample :
    (CompareStrategies.selectItems (GenerateDataset.main ()) true (some 7)).length = 5 ∧
      min 7 (GenerateDataset.main ()).length = 7 ∧
      (CompareStrategies.selectItems (GenerateDataset.main ()) true (some 7)).length ≠
        min 7 (GenerateDataset.main ()).length := by
  decide

/-- Claim C3 (amended): when both the smoke flag and an explicit numeric
limit are given, smoke mode takes precedence over the limit in both
runners: the selection is the first min(5, |dataset|) items, whatever the
limit. -/
theorem C3_smoke_overrides_limit (ds : List QAItem) (n : Int) :
    CompareStrategies.selectItems ds true (some n) = ds.take 5 ∧
      (CompareStrategies.selectItems ds true (some n)).length = min 5 ds.length ∧
      RunRagas.selectItems ds none true (some n) = ds.take 5 := by
  refine ⟨rfl, ?_, rfl⟩
  simp [CompareStrategies.selectItems, List.length_take]

/-- Claim C4: a run of the RAGAS runner (the one runner that accepts a
category filter; it issues a single request per item) with filter
qualitative contains records only for items whose category is qualitative:
the records are exactly the filtered selection, in order, one record per
selected item. -/
theorem C4_qualitative_filter (ds : List QAItem) (smoke : Bool) (limit : Option Int)
    (fetch : String → Outcome) (h : ∀ q, (fetch q).isResponse = true) :
    (RunRagas.main true ds (some ["qualitative"]) smoke limit fetch).1
        = (RunRagas.selectItems ds (some ["qualitative"]) smoke limit).map
            (fun it => RunRagas.recordOf it (fetch it.question)) ∧
      (∀ r ∈ (RunRagas.main true ds (some ["qualitative"]) smoke limit fetch).1,
        r.category = some "qualitative") ∧
      (RunRagas.main true ds (some ["qualitative"]) smoke limit fetch).1.length
        = (RunRagas.selectItems ds (some ["qualitative"]) smoke limit).length := by
  have hmain : RunRagas.main true ds (some ["qualitative"]) smoke limit fetch
      = ((RunRagas.selectItems ds (some ["qualitative"]) smoke limit).map
          (fun it => RunRagas.recordOf it (fetch it.question)), Except.ok ()) :=
    RunRagas.ragas_loop_all_responses fetch (RunRagas.selectItems ds (some ["qualitative"]) smoke limit)
      (fun it _ => h it.question)
  refine ⟨by rw [hmain], ?_, by rw [hmain]; simp⟩
  intro r hr
  rw [hmain] at hr
  obtain ⟨it, hit, rfl⟩ := List.mem_map.mp hr
  rw [RunRagas.recordOf_category]
  have hc : (["qualitative"] : List String).contains it.category = true :=
    RunRagas.mem_selectItems_cats ds ["qualitative"] rfl smoke limit it hit
  simp only [List.contains_cons, List.contains_nil, Bool.or_false, beq_iff_eq] at hc
  rw [hc]

/-- Claim C4 witness: over the golden dataset with every request answered
200, the qualitative run records exactly the two qualitative items. -/
theorem C4_witness :
    (RunRagas.main true (GenerateDataset.main ()) (some ["qualitative"]) false none
        (fun q => Outcome.response 200 ("answer to " ++ q))).1
        = (RunRagas.selectItems (GenerateDataset.main ()) (some ["qualitative"]) false none).map
            (fun it => RunRagas.recordOf it (Outcome.response 200 ("answer to " ++ it.question))) ∧
      (∀ r ∈ (RunRagas.main true (GenerateDataset.main ()) (some ["qualitative"]) false none
          (fun q => Outcome.response 200 ("answer to " ++ q))).1,
        r.category = some "qualitative") ∧
      (RunRagas.main true (GenerateDataset.main ()) (some ["qualitative"]) false none
          (fun q => Outcome.response 200 ("answer to " ++ q))).1.length
        = (RunRagas.selectItems (GenerateDataset.main ()) (some ["qualitative"]) false none).length :=
  C4_qualitative_filter _ _ _ _ (fun _ => rfl)

/-- Claim C6: when every attempted request receives an HTTP response, the
Run Records of `compare-strategies.py` are exactly the Cartesian product of
items × strategies, ordered items-outer/strategies-inner, so for a fixed
item the records across strategies appear in the strategy-list order
given. -/
theorem C6_product_order (ds : List QAItem) (strats : List String)
    (fetch : QAItem → String → Outcome)
    (h : ∀ it ∈ ds, ∀ s ∈ strats, (fetch it s).isResponse = true) :
    (CompareStrategies.runLoop fetch ds strats).1
      = ds.flatMap (fun it => strats.map (fun s => CompareStrategies.recordOf it s (fetch it s))) := by
  rw [CompareStrategies.runLoop_all_responses fetch ds strats h]

/-- Claim C6 witness: two items and two strategies with distinct 200
responses produce the four records in product order. -/
theorem C6_witness :
    (CompareStrategies.runLoop (fun it s => Outcome.response 200 (it.id ++ ":" ++ s))
        ((GenerateDataset.main ()).take 2) ["baseline", "hybrid-0.6"]).1
      = ((GenerateDataset.main ()).take 2).flatMap
          (fun it => (["baseline", "hybrid-0.6"] : List String).map
            (fun s => CompareStrategies.recordOf it s (Outcome.response 200 (it.id ++ ":" ++ s)))) :=
  C6_product_order _ _ _ (by decide)

/-- Claim C7: when the dataset artifact is missing, both runners abort
before any HTTP request is issued (the outcome is independent of the
oracle), no Run Record is written, and the reported error names the
expected dataset path. -/
theorem C7_missing_dataset_fatal (ds : List QAItem) (smoke : Bool) (limit : Option Int)
    (strategies : Option (List String)) (cats : Option (List String))
    (fetch fetch2 : QAItem → String → Outcome) (g g2 : String → Outcome) :
    CompareStrategies.main false ds smoke limit strategies fetch
        = ([], Except.error ("Dataset not found: " ++ CompareStrategies.DATASET_PATH)) ∧
      CompareStrategies.main false ds smoke limit strategies fetch
        = CompareStrategies.main false ds smoke limit strategies fetch2 ∧
      RunRagas.main false ds cats smoke limit g
        = ([], Except.error ("Dataset not found: " ++ RunRagas.DATASET_PATH)) ∧
      RunRagas.main false ds cats smoke limit g = RunRagas.main false ds cats smoke limit g2 :=
  ⟨rfl, rfl, rfl, rfl⟩

/-- Claim C8 counterexample: in `compare-strategies.py`, a request answered
with a failing status 500 is written as a record whose raw_response holds
the error body in the success-shaped field, with the failure visible only
in the status; the record shape has no error field at all, contradicting
"on failure raw_response is null paired with a populated error field". -/
theorem C8_counterexample :
    CompareStrategies.main true (GenerateDataset.main ()) false (some 1) (some ["baseline"])
        errorBodyFetch
      = ([⟨"single_metric_1", "What was NVDA's revenue in Q3 FY2024?", "baseline", 500,
            "Internal Server Error"⟩], Except.ok ()) :=
  rfl

/-- Claim C8 (amended): in the RAGAS runner the claim holds: every record
either holds the full payload in raw_response with a null error (200
response) or a null raw_response paired with a populated error (non-200);
the strategy-comparison runner instead always stores the payload in
raw_response — error bodies included — with the failure indicated only by
the status field, and its records have no error field. -/
theorem C8_ragas_response_shape (ds : List QAItem) (cats : Option (List String)) (smoke : Bool)
    (limit : Option Int) (fetch : String → Outcome) (h : ∀ q, (fetch q).isResponse = true) :
    (RunRagas.main true ds cats smoke limit fetch).1
        = (RunRagas.selectItems ds cats smoke limit).map
            (fun it => RunRagas.recordOf it (fetch it.question)) ∧
      ∀ r ∈ (RunRagas.main true ds cats smoke limit fetch).1,
        (∃ body, r.raw_response = some body ∧ r.error = none) ∨
          (r.raw_response = none ∧ ∃ msg, r.error = some msg) := by
  have hmain : RunRagas.main true ds cats smoke limit fetch
      = ((RunRagas.selectItems ds cats smoke limit).map
          (fun it => RunRagas.recordOf it (fetch it.question)), Except.ok ()) :=
    RunRagas.ragas_loop_all_responses fetch (RunRagas.selectItems ds cats smoke limit)
      (fun it _ => h it.question)
  refine ⟨by rw [hmain], ?_⟩
  intro r hr
  rw [hmain] at hr
  obtain ⟨it, _, rfl⟩ := List.mem_map.mp hr
  exact RunRagas.recordOf_shape it (fetch it.question)

/-- Claim C8 witness: a smoke run where every request is answered 503
yields only records with a null raw_response and a populated error. -/
theorem C8_witness :
    (RunRagas.main true (GenerateDataset.main ()) none true none
        (fun q => Outcome.response 503 ("busy: " ++ q))).1
        = (RunRagas.selectItems (GenerateDataset.main ()) none true none).map
            (fun it => RunRagas.recordOf it (Outcome.response 503 ("busy: " ++ it.question))) ∧
      ∀ r ∈ (RunRagas.main true (GenerateDataset.main ()) none true none
          (fun q => Outcome.response 503 ("busy: " ++ q))).1,
        (∃ body, r.raw_response = some body ∧ r.error = none) ∨
          (r.raw_response = none ∧ ∃ msg, r.error = some msg) :=
  C8_ragas_response_shape _ _ _ _ _ (fun _ => rfl)

/-- Claim C10: in the RAGAS runner a category filter is applied before the
slicing: with smoke mode the selection is the first min(5, count) items of
the category-filtered sequence, and with a positive numeric limit N the
first min(N, count) items of the category-filtered sequence — never a
limit applied to the unfiltered dataset. -/
theorem C10_filter_before_limit (ds : List QAItem) (cats : List String) (limit : Option Int)
    (n : Int) (hcats : cats ≠ []) (hn : 0 < n) :
    RunRagas.selectItems ds (some cats) true limit
        = (ds.filter (fun d => cats.contains d.category)).take 5 ∧
      RunRagas.selectItems ds (some cats) false (some n)
        = (ds.filter (fun d => cats.contains d.category)).take n.toNat := by
  have hempty : cats.isEmpty = false := by
    cases cats with
    | nil => exact absurd rfl hcats
    | cons a l => rfl
  constructor
  · simp [RunRagas.selectItems, hempty]
  · have htruthy : pyTruthyInt (some n) = true := by
      simp only [pyTruthyInt, bne_iff_ne, ne_eq, decide_eq_true_eq]
      omega
    simp only [RunRagas.selectItems, hempty, Bool.false_eq_true, if_false, htruthy, if_true,
      Bool.true_eq_false, Option.getD_some]
    rw [pySliceTo, if_pos (Int.le_of_lt hn)]

/-- Claim C10 witness: over the golden dataset with filter
{qualitative, hybrid}, both smoke mode and limit 2 slice the filtered
sequence. -/
theorem C10_witness :
    RunRagas.selectItems (GenerateDataset.main ()) (some ["qualitative", "hybrid"]) true none
        = ((GenerateDataset.main ()).filter
            (fun d => (["qualitative", "hybrid"] : List String).contains d.category)).take 5 ∧
      RunRagas.selectItems (GenerateDataset.main ()) (some ["qualitative", "hybrid"]) false (some 2)
        = ((GenerateDataset.main ()).filter
            (fun d => (["qualitative", "hybrid"] : List String).contains d.category)).take
              (2 : Int).toNat :=
  C10_filter_before_limit _ _ _ _ (by decide) (by decide)
